import Mathlib

/-!
Verification of the hyperliquid-wallet-dashboard behavioral signal pipeline.

Scores (CAS, dispersion index, exit-cluster score, position sizes) are
modelled as rationals; the playbook, risk mode and trend labels are the
exact strings the code uses. Database reads become explicit inputs and
database writes become explicit outputs of the modelled functions.
-/

namespace HLDash

/-! ## src/signals/playbook.py -/

/-- Embedding of determine_playbook: tie-breaker overrides in strict order
(dispersion, exit cluster, falling trend) followed by the decision matrix,
first matching row winning, with (No-trade, Reduced) as the default. -/
def determine_playbook (cas : ℚ) (trend : String) (dispersion : ℚ)
    (exit_cluster : ℚ) : String × String :=
  if dispersion ≥ 60 then ("No-trade", "Defensive")
  else if exit_cluster > 25 then ("No-trade", "Defensive")
  else if trend = "falling" ∧ cas > 60 then ("No-trade", "Reduced")
  else
  if cas > 75 ∧ trend = "rising" ∧ dispersion < 40 ∧ exit_cluster < 16 then
    ("Long-only", "Normal")
  else if cas > 75 ∧ trend = "rising" ∧ dispersion < 40 ∧
      (16 ≤ exit_cluster ∧ exit_cluster ≤ 25) then
    ("Long-only", "Reduced")
  else if cas > 75 ∧ trend = "flat" ∧ dispersion < 40 ∧ exit_cluster < 16 then
    ("Long-only", "Reduced")
  else if (60 ≤ cas ∧ cas ≤ 75) ∧ trend = "rising" ∧ dispersion < 40 ∧
      exit_cluster < 16 then
    ("Long-only", "Reduced")
  else if (60 ≤ cas ∧ cas ≤ 75) ∧ (40 ≤ dispersion ∧ dispersion < 60) ∧
      exit_cluster < 16 then
    ("Long-only", "Reduced")
  else if cas < 25 ∧ trend = "falling" ∧ dispersion < 40 ∧ exit_cluster < 16 then
    ("Short-only", "Normal")
  else if cas < 25 ∧ trend = "falling" ∧ dispersion < 40 ∧
      (16 ≤ exit_cluster ∧ exit_cluster ≤ 25) then
    ("Short-only", "Reduced")
  else if cas < 25 ∧ trend = "flat" ∧ dispersion < 40 ∧ exit_cluster < 16 then
    ("Short-only", "Reduced")
  else if (25 ≤ cas ∧ cas < 40) ∧ trend = "falling" ∧ dispersion < 40 ∧
      exit_cluster < 16 then
    ("Short-only", "Reduced")
  else if (25 ≤ cas ∧ cas < 40) ∧ (40 ≤ dispersion ∧ dispersion < 60) ∧
      exit_cluster < 16 then
    ("Short-only", "Reduced")
  else if 40 ≤ cas ∧ cas ≤ 60 then
    ("No-trade", "Defensive")
  else
    ("No-trade", "Reduced")

/-- The decision matrix of section 4.7 of the spec, written from the spec's
table: rows a..k in order, first matching row wins, "otherwise" row last.
Used to compare the code's fallthrough behaviour against the spec. -/
def playbook_matrix (cas : ℚ) (trend : String) (dispersion : ℚ)
    (exit_cluster : ℚ) : String × String :=
  if cas > 75 ∧ trend = "rising" ∧ dispersion < 40 ∧ exit_cluster < 16 then
    ("Long-only", "Normal")
  else if cas > 75 ∧ trend = "rising" ∧ dispersion < 40 ∧
      (16 ≤ exit_cluster ∧ exit_cluster ≤ 25) then
    ("Long-only", "Reduced")
  else if cas > 75 ∧ trend = "flat" ∧ dispersion < 40 ∧ exit_cluster < 16 then
    ("Long-only", "Reduced")
  else if (60 ≤ cas ∧ cas ≤ 75) ∧ trend = "rising" ∧ dispersion < 40 ∧
      exit_cluster < 16 then
    ("Long-only", "Reduced")
  else if (60 ≤ cas ∧ cas ≤ 75) ∧ (40 ≤ dispersion ∧ dispersion < 60) ∧
      exit_cluster < 16 then
    ("Long-only", "Reduced")
  else if cas < 25 ∧ trend = "falling" ∧ dispersion < 40 ∧ exit_cluster < 16 then
    ("Short-only", "Normal")
  else if cas < 25 ∧ trend = "falling" ∧ dispersion < 40 ∧
      (16 ≤ exit_cluster ∧ exit_cluster ≤ 25) then
    ("Short-only", "Reduced")
  else if cas < 25 ∧ trend = "flat" ∧ dispersion < 40 ∧ exit_cluster < 16 then
    ("Short-only", "Reduced")
  else if (25 ≤ cas ∧ cas < 40) ∧ trend = "falling" ∧ dispersion < 40 ∧
      exit_cluster < 16 then
    ("Short-only", "Reduced")
  else if (25 ≤ cas ∧ cas < 40) ∧ (40 ≤ dispersion ∧ dispersion < 60) ∧
      exit_cluster < 16 then
    ("Short-only", "Reduced")
  else if 40 ≤ cas ∧ cas ≤ 60 then
    ("No-trade", "Defensive")
  else
    ("No-trade", "Reduced")

/-- Embedding of compute_derived_outputs: the add_exposure and
tighten_stops booleans derived from trend, dispersion and exit cluster. -/
def compute_derived_outputs (trend : String) (dispersion : ℚ)
    (exit_cluster : ℚ) : Bool × Bool :=
  let add_exposure : Bool :=
    decide (trend = "rising" ∧ exit_cluster < 16 ∧ dispersion < 60)
  let tighten_stops : Bool :=
    decide (exit_cluster > 25 ∨ trend = "falling" ∨ dispersion ≥ 60)
  (add_exposure, tighten_stops)

/-! ## src/signals/core.py -/

/-- Embedding of compute_cas: 50 + (n_L - n_S)/n_T * 50, capped at 60 when
the exit-cluster score exceeds 25, then bounded to [0, 100]; 50 when
n_total is zero. -/
def compute_cas (n_adder_long n_adder_short n_total : ℕ)
    (exit_cluster_score : ℚ) : ℚ :=
  if n_total = 0 then 50
  else
    max 0 (min 100
      (if exit_cluster_score > 25 then
        min
          (50 +
            ((n_adder_long : ℚ) - (n_adder_short : ℚ)) / (n_total : ℚ) * 50)
          60
      else
        50 + ((n_adder_long : ℚ) - (n_adder_short : ℚ)) / (n_total : ℚ) * 50))

/-- Embedding of compute_exit_cluster_score: n_reducer / n_total * 100,
0 when n_total is zero. -/
def compute_exit_cluster_score (n_reducer n_total : ℕ) : ℚ :=
  if n_total = 0 then 0
  else ((n_reducer : ℚ) / (n_total : ℚ)) * 100

/-! ## src/signals/classifier.py -/

/-- Wallet behavioral states of classifier.py. -/
inductive WalletState where
  | adder_long
  | adder_short
  | reducer
  | flat
deriving DecidableEq, Repr

/-- Embedding of classify_wallet: rule chain over the position delta with
the per-wallet epsilon noise threshold. -/
def classify_wallet (szi_current : ℚ) (szi_previous : Option ℚ)
    (epsilon : ℚ) : WalletState :=
  match szi_previous with
  | none => .flat
  | some prev =>
    let delta_szi := szi_current - prev
    if delta_szi > epsilon ∧ szi_current > 0 then .adder_long
    else if delta_szi < -epsilon ∧ szi_current < 0 then .adder_short
    else if |szi_current| < |prev| - epsilon then .reducer
    else .flat

/-- The classification rules as section 4.5 of the spec states them:
Flat whenever szi_previous is null, otherwise the four rules top-down
with first match winning. Written from the spec's words for comparison
with classify_wallet. -/
def classify_wallet_spec (szi_current : ℚ) (szi_previous : Option ℚ)
    (epsilon : ℚ) : WalletState :=
  match szi_previous with
  | none => .flat
  | some prev =>
    if szi_current - prev > epsilon ∧ szi_current > 0 then .adder_long
    else if szi_current - prev < -epsilon ∧ szi_current < 0 then .adder_short
    else if |szi_current| < |prev| - epsilon then .reducer
    else .flat

/-! ## src/signals/core.py, dispersion index -/

/-- One wallet entry of the classifications dictionary, with the fields
compute_dispersion_index reads. -/
structure WalletClassification where
  szi_previous : Option ℚ
  delta_szi : Option ℚ
  epsilon : ℚ

/-- The per-wallet change ratio of compute_dispersion_index, clamped to
[-2, 2] as in the code: max(-2.0, min(2.0, ratio)). -/
def clampRatio (delta prev epsilon : ℚ) : ℚ :=
  max (-2) (min 2 (delta / max |prev| epsilon))

/-- The ratio list built by the loop of compute_dispersion_index: wallets
whose szi_previous or delta_szi is missing are skipped. -/
def dispersionRatios (classifications : List WalletClassification) : List ℚ :=
  classifications.filterMap fun w =>
    match w.szi_previous, w.delta_szi with
    | some prev, some delta => some (clampRatio delta prev w.epsilon)
    | _, _ => none

/-- Sample variance with the n-1 denominator, the square of the sample
standard deviation computed by statistics.stdev. -/
def sampleVariance (l : List ℚ) : ℚ :=
  let n : ℚ := l.length
  let mean := l.sum / n
  (l.map fun x => (x - mean) ^ 2).sum / (n - 1)

/-- Embedding of compute_dispersion_index: ratios from wallets with both
szi_previous and delta_szi, default 50 below 5 ratios, 0 when the ratio
set has a single element, else min(stdev * 100, 100). -/
noncomputable def compute_dispersion_index
    (classifications : List WalletClassification) : ℝ :=
  if (dispersionRatios classifications).length < 5 then 50
  else if (dispersionRatios classifications).dedup.length = 1 then 0
  else
    min (Real.sqrt (sampleVariance (dispersionRatios classifications)) * 100)
      100

/-- The ratio list as the spec states it: over the wallets having both
szi_previous and delta, the ratio delta / max(|szi_previous|, epsilon)
clamped to [-2, +2]. Written from the spec's words for comparison with
dispersionRatios. -/
def dispersion_ratios_spec (classifications : List WalletClassification) :
    List ℚ :=
  (classifications.filter fun w =>
    w.szi_previous.isSome && w.delta_szi.isSome).map fun w =>
      min 2 (max (-2)
        ((w.delta_szi.getD 0) / max |w.szi_previous.getD 0| w.epsilon))

/-- The dispersion index as the spec states it: 50 when fewer than 5
ratios exist, 0 when all ratios are equal, otherwise min(sigma * 100, 100)
with sigma the sample standard deviation of the clamped ratios. Written
from the spec's words for comparison with compute_dispersion_index. -/
noncomputable def dispersion_index_spec
    (classifications : List WalletClassification) : ℝ :=
  if (dispersion_ratios_spec classifications).length < 5 then 50
  else if ∀ x ∈ dispersion_ratios_spec classifications,
      ∀ y ∈ dispersion_ratios_spec classifications, x = y then 0
  else
    min
      (Real.sqrt (sampleVariance (dispersion_ratios_spec classifications)) *
        100)
      100

/-! ## src/signals/aggregator.py and runner.py, signal lock -/

/-- The latest ingest_health row, with the fields check_signal_lock reads. -/
structure HealthRow where
  health_state : String
  snapshot_status : String

/-- Embedding of check_signal_lock: the most recent ingest_health row is an
explicit Option input (none models an empty ingest_health table). -/
def check_signal_lock (health : Option HealthRow) : Bool :=
  match health with
  | none => false
  | some h =>
    if h.health_state = "stale" then false
    else if h.snapshot_status = "failed" then false
    else true

/-- Embedding of the gate at the top of run_signal_computation: the rest of
the cycle (signal persistence and alert evaluation, abstracted as a value
of an arbitrary type) runs only when check_signal_lock passes; none models
the early return where nothing is persisted and no alert is evaluated. -/
def run_signal_computation {α : Type} (health : Option HealthRow)
    (cycle : α) : Option α :=
  if check_signal_lock health then some cycle else none

/-! ## src/alerts -/

/-- A row persisted into the alerts log, with the fields the claims need. -/
structure AlertRow where
  alert_type : String
  severity : String
  suppressed : Bool
deriving DecidableEq, Repr

/-- The regime tracking state read and written through
get_regime_tracking_state / update_regime_tracking_state. -/
structure RegimeState where
  previous_playbook : String
  pending_playbook : Option String
  periods_at_new : ℕ
deriving DecidableEq, Repr

/-- Embedding of evaluate_regime_change_alert. The tracking row, the
throttling verdict (can_fire, the result of should_fire_alert) and the
system-stale suppression flag are explicit inputs; the output is
(fired, new tracking row, persisted alert rows). -/
def evaluate_regime_change_alert (tracking : Option RegimeState)
    (current_playbook : String) (can_fire : Bool)
    (suppressed_by_system : Bool) :
    Bool × Option RegimeState × List AlertRow :=
  if suppressed_by_system then (false, tracking, [])
  else
    match tracking with
    | none => (false, some ⟨current_playbook, none, 0⟩, [])
    | some t =>
      if current_playbook ≠ t.previous_playbook then
        if t.pending_playbook = some current_playbook then
          let periods := t.periods_at_new + 1
          if periods ≥ 2 then
            if ¬ can_fire then
              (false, some ⟨current_playbook, none, 0⟩,
                [⟨"regime_change", "medium", true⟩])
            else
              (true, some ⟨current_playbook, none, 0⟩,
                [⟨"regime_change", "medium", false⟩])
          else
            (false, some ⟨t.previous_playbook, some current_playbook, periods⟩,
              [])
        else
          (false, some ⟨t.previous_playbook, some current_playbook, 1⟩, [])
      else
        if t.pending_playbook = some current_playbook then
          let periods := t.periods_at_new + 1
          if periods ≥ 2 then
            (false, some ⟨current_playbook, none, 0⟩, [])
          else
            (false, some ⟨t.previous_playbook, t.pending_playbook, periods⟩, [])
        else if t.pending_playbook ≠ none then
          (false, some ⟨current_playbook, none, 0⟩, [])
        else
          (false, some ⟨current_playbook, none, 0⟩, [])

/-- Invariant of the regime tracking rows the code creates: either no
pending playbook and a zero period count, or a pending playbook distinct
from the previous one seen exactly once. -/
def RegimeInv (s : RegimeState) : Prop :=
  (s.pending_playbook = none ∧ s.periods_at_new = 0) ∨
  (∃ p, s.pending_playbook = some p ∧ p ≠ s.previous_playbook ∧
    s.periods_at_new = 1)

/-- Embedding of evaluate_exit_cluster_alert. The stored is_active flag,
the throttling verdict and the system-stale suppression flag are explicit
inputs; the output is (fired, new is_active, persisted alert rows). -/
def evaluate_exit_cluster_alert (is_active : Bool) (exit_cluster_score : ℚ)
    (can_fire : Bool) (suppressed_by_system : Bool) :
    Bool × Bool × List AlertRow :=
  if suppressed_by_system then (false, is_active, [])
  else
    let step : Bool × Bool :=
      if ¬ is_active ∧ exit_cluster_score > 25 then (true, true)
      else if is_active ∧ exit_cluster_score < 20 then (false, false)
      else (false, is_active)
    if step.1 then
      if ¬ can_fire then (false, step.2, [⟨"exit_cluster", "high", true⟩])
      else (true, step.2, [⟨"exit_cluster", "high", false⟩])
    else (false, step.2, [])

/-- Embedding of evaluate_alerts of evaluator.py for one asset: when the
system-stale alert state is active the function returns an empty fired
list before reaching either behavioral evaluator; otherwise it runs
regime change then exit cluster. Output: (alert types fired, new regime
tracking row, new exit-cluster is_active flag, persisted alert rows). -/
def evaluate_alerts (system_stale_active : Bool)
    (regime_tracking : Option RegimeState) (ec_active : Bool)
    (current_playbook : String) (exit_cluster_score : ℚ)
    (regime_can_fire ec_can_fire : Bool) :
    List String × Option RegimeState × Bool × List AlertRow :=
  if system_stale_active then ([], regime_tracking, ec_active, [])
  else
    let r := evaluate_regime_change_alert regime_tracking current_playbook
      regime_can_fire false
    let e := evaluate_exit_cluster_alert ec_active exit_cluster_score
      ec_can_fire false
    ((if r.1 then ["regime_change"] else []) ++
      (if e.1 then ["exit_cluster"] else []),
      r.2.1, e.2.1, r.2.2 ++ e.2.2)

/-! ## Theorems -/

/-- C1: determine_playbook evaluates the overrides in strict priority
order before the decision matrix: Di >= 60 gives (No-trade, Defensive);
otherwise EC > 25 gives (No-trade, Defensive); otherwise falling trend
with CAS > 60 gives (No-trade, Reduced); only when none of these match
does the matrix decide, first matching row winning, with
(No-trade, Reduced) as the final fallthrough. -/
theorem claim_C1_playbook_override_priority (cas : ℚ) (trend : String)
    (di ec : ℚ) :
    (di ≥ 60 →
      determine_playbook cas trend di ec = ("No-trade", "Defensive")) ∧
    (di < 60 → ec > 25 →
      determine_playbook cas trend di ec = ("No-trade", "Defensive")) ∧
    (di < 60 → ec ≤ 25 → trend = "falling" ∧ cas > 60 →
      determine_playbook cas trend di ec = ("No-trade", "Reduced")) ∧
    (di < 60 → ec ≤ 25 → ¬(trend = "falling" ∧ cas > 60) →
      determine_playbook cas trend di ec =
        playbook_matrix cas trend di ec) := by
  refine ⟨fun h1 => ?_, fun h1 h2 => ?_, fun h1 h2 h3 => ?_,
    fun h1 h2 h3 => ?_⟩
  · unfold determine_playbook
    rw [if_pos h1]
  · unfold determine_playbook
    rw [if_neg (not_le.mpr h1), if_pos h2]
  · unfold determine_playbook
    rw [if_neg (not_le.mpr h1), if_neg (not_lt.mpr h2), if_pos h3]
  · unfold determine_playbook playbook_matrix
    rw [if_neg (not_le.mpr h1), if_neg (not_lt.mpr h2), if_neg h3]

/-- C1 witness: the dispersion override at a concrete input that the
matrix row a would otherwise claim. -/
theorem claim_C1_playbook_override_priority_witness :
    determine_playbook 80 "rising" 70 5 = ("No-trade", "Defensive") :=
  (claim_C1_playbook_override_priority 80 "rising" 70 5).1 (by decide)

/-- C3: classify_wallet applies its rules top-down with first match
winning: Adder-Long when delta > epsilon and szi_current > 0; Adder-Short
when delta < -epsilon and szi_current < 0; Reducer when
|szi_current| < |szi_previous| - epsilon; Flat in all other cases, and
always Flat when szi_previous is null. -/
theorem claim_C3_classifier_rules (szi_current : ℚ)
    (szi_previous : Option ℚ) (epsilon : ℚ) :
    classify_wallet szi_current szi_previous epsilon =
      classify_wallet_spec szi_current szi_previous epsilon := by
  cases szi_previous <;> rfl

/-- C9: a directional playbook can only come from a matrix row, so
Long-only implies CAS >= 60 and Short-only implies CAS < 40. -/
theorem claim_C9_directional_playbook_cas_bounds (cas : ℚ) (trend : String)
    (di ec : ℚ) :
    ((determine_playbook cas trend di ec).1 = "Long-only" → cas ≥ 60) ∧
    ((determine_playbook cas trend di ec).1 = "Short-only" → cas < 40) := by
  rcases hp : determine_playbook cas trend di ec with ⟨pb, rm⟩
  unfold determine_playbook at hp
  by_cases h1 : di ≥ 60
  · rw [if_pos h1] at hp
    injection hp with hpb hrm; subst hpb
    exact ⟨fun h => absurd h (by simp), fun h => absurd h (by simp)⟩
  rw [if_neg h1] at hp
  by_cases h2 : ec > 25
  · rw [if_pos h2] at hp
    injection hp with hpb hrm; subst hpb
    exact ⟨fun h => absurd h (by simp), fun h => absurd h (by simp)⟩
  rw [if_neg h2] at hp
  by_cases h3 : trend = "falling" ∧ cas > 60
  · rw [if_pos h3] at hp
    injection hp with hpb hrm; subst hpb
    exact ⟨fun h => absurd h (by simp), fun h => absurd h (by simp)⟩
  rw [if_neg h3] at hp
  by_cases h4 : cas > 75 ∧ trend = "rising" ∧ di < 40 ∧ ec < 16
  · rw [if_pos h4] at hp
    injection hp with hpb hrm; subst hpb
    exact ⟨fun _ => by linarith [h4.1], fun h => absurd h (by simp)⟩
  rw [if_neg h4] at hp
  by_cases h5 : cas > 75 ∧ trend = "rising" ∧ di < 40 ∧ 16 ≤ ec ∧ ec ≤ 25
  · rw [if_pos h5] at hp
    injection hp with hpb hrm; subst hpb
    exact ⟨fun _ => by linarith [h5.1], fun h => absurd h (by simp)⟩
  rw [if_neg h5] at hp
  by_cases h6 : cas > 75 ∧ trend = "flat" ∧ di < 40 ∧ ec < 16
  · rw [if_pos h6] at hp
    injection hp with hpb hrm; subst hpb
    exact ⟨fun _ => by linarith [h6.1], fun h => absurd h (by simp)⟩
  rw [if_neg h6] at hp
  by_cases h7 : (60 ≤ cas ∧ cas ≤ 75) ∧ trend = "rising" ∧ di < 40 ∧ ec < 16
  · rw [if_pos h7] at hp
    injection hp with hpb hrm; subst hpb
    exact ⟨fun _ => by linarith [h7.1.1], fun h => absurd h (by simp)⟩
  rw [if_neg h7] at hp
  by_cases h8 : (60 ≤ cas ∧ cas ≤ 75) ∧ (40 ≤ di ∧ di < 60) ∧ ec < 16
  · rw [if_pos h8] at hp
    injection hp with hpb hrm; subst hpb
    exact ⟨fun _ => by linarith [h8.1.1], fun h => absurd h (by simp)⟩
  rw [if_neg h8] at hp
  by_cases h9 : cas < 25 ∧ trend = "falling" ∧ di < 40 ∧ ec < 16
  · rw [if_pos h9] at hp
    injection hp with hpb hrm; subst hpb
    exact ⟨fun h => absurd h (by simp), fun _ => by linarith [h9.1]⟩
  rw [if_neg h9] at hp
  by_cases h10 : cas < 25 ∧ trend = "falling" ∧ di < 40 ∧ 16 ≤ ec ∧ ec ≤ 25
  · rw [if_pos h10] at hp
    injection hp with hpb hrm; subst hpb
    exact ⟨fun h => absurd h (by simp), fun _ => by linarith [h10.1]⟩
  rw [if_neg h10] at hp
  by_cases h11 : cas < 25 ∧ trend = "flat" ∧ di < 40 ∧ ec < 16
  · rw [if_pos h11] at hp
    injection hp with hpb hrm; subst hpb
    exact ⟨fun h => absurd h (by simp), fun _ => by linarith [h11.1]⟩
  rw [if_neg h11] at hp
  by_cases h12 : (25 ≤ cas ∧ cas < 40) ∧ trend = "falling" ∧ di < 40 ∧ ec < 16
  · rw [if_pos h12] at hp
    injection hp with hpb hrm; subst hpb
    exact ⟨fun h => absurd h (by simp), fun _ => by linarith [h12.1.2]⟩
  rw [if_neg h12] at hp
  by_cases h13 : (25 ≤ cas ∧ cas < 40) ∧ (40 ≤ di ∧ di < 60) ∧ ec < 16
  · rw [if_pos h13] at hp
    injection hp with hpb hrm; subst hpb
    exact ⟨fun h => absurd h (by simp), fun _ => by linarith [h13.1.2]⟩
  rw [if_neg h13] at hp
  by_cases h14 : 40 ≤ cas ∧ cas ≤ 60
  · rw [if_pos h14] at hp
    injection hp with hpb hrm; subst hpb
    exact ⟨fun h => absurd h (by simp), fun h => absurd h (by simp)⟩
  rw [if_neg h14] at hp
  injection hp with hpb hrm; subst hpb
  exact ⟨fun h => absurd h (by simp), fun h => absurd h (by simp)⟩

/-- C9 witness: a concrete Long-only input and a concrete Short-only
input, with the CAS bounds obtained through the theorem. -/
theorem claim_C9_directional_playbook_cas_bounds_witness :
    (80 : ℚ) ≥ 60 ∧ (20 : ℚ) < 40 :=
  ⟨(claim_C9_directional_playbook_cas_bounds 80 "rising" 10 5).1 (by decide),
   (claim_C9_directional_playbook_cas_bounds 20 "falling" 10 5).2 (by decide)⟩

/-- C10: add_exposure and tighten_stops are never both true: add_exposure
needs a rising trend, EC < 16 and Di < 60, each contradicting one
disjunct of tighten_stops. -/
theorem claim_C10_derived_outputs_exclusive (trend : String) (di ec : ℚ) :
    ((compute_derived_outputs trend di ec).1 &&
      (compute_derived_outputs trend di ec).2) = false := by
  by_cases h : trend = "rising" ∧ ec < 16 ∧ di < 60
  · obtain ⟨ht, hec, hdi⟩ := h
    have h1 : ¬(ec > 25) := by linarith
    have h2 : ¬(trend = "falling") := by rw [ht]; decide
    have h3 : ¬(di ≥ 60) := by linarith
    simp [compute_derived_outputs, h1, h2, h3]
  · simp [compute_derived_outputs, h]

/-- C2: for n_total > 0 the alignment score is
50 + 50 * (n_L - n_S) / n_T clamped to [0, 100] and additionally capped
at 60 when EC > 25 (so EC > 25 implies CAS <= 60); for n_total = 0 it is
exactly 50. -/
theorem claim_C2_cas_formula (nL nS nT : ℕ) (ec : ℚ) :
    (nT ≠ 0 →
      compute_cas nL nS nT ec =
        (if ec > 25 then
          min (max 0 (min 100 (50 + 50 * (((nL : ℚ) - (nS : ℚ)) / (nT : ℚ)))))
            60
        else
          max 0
            (min 100 (50 + 50 * (((nL : ℚ) - (nS : ℚ)) / (nT : ℚ))))) ∧
      (ec > 25 → compute_cas nL nS nT ec ≤ 60)) ∧
    (nT = 0 → compute_cas nL nS nT ec = 50) := by
  have hform : 50 + (((nL : ℚ) - (nS : ℚ)) / (nT : ℚ) * 50) =
      50 + 50 * (((nL : ℚ) - (nS : ℚ)) / (nT : ℚ)) := by ring
  constructor
  · intro hT
    have hmain : compute_cas nL nS nT ec =
        (if ec > 25 then
          min (max 0 (min 100 (50 + 50 * (((nL : ℚ) - (nS : ℚ)) / (nT : ℚ)))))
            60
        else
          max 0
            (min 100 (50 + 50 * (((nL : ℚ) - (nS : ℚ)) / (nT : ℚ))))) := by
      unfold compute_cas
      rw [if_neg hT]
      by_cases hec : ec > 25
      · rw [if_pos hec, if_pos hec, hform]
        rw [← min_assoc, max_min_distrib_left]
        norm_num
      · rw [if_neg hec, if_neg hec, hform]
    refine ⟨hmain, fun hec => ?_⟩
    rw [hmain, if_pos hec]
    exact min_le_right _ _
  · intro hT
    unfold compute_cas
    rw [if_pos hT]

/-- C2 witness: a concrete capped input (EC over 25) and the n_total = 0
neutral default, through the theorem. -/
theorem claim_C2_cas_formula_witness :
    compute_cas 7 1 10 30 ≤ 60 ∧ compute_cas 0 0 0 10 = 50 :=
  ⟨((claim_C2_cas_formula 7 1 10 30).1 (by decide)).2 (by decide),
   (claim_C2_cas_formula 0 0 0 10).2 rfl⟩

/-- C5: exit-cluster hysteresis with trigger 25 and reset 20: inactive
with EC > 25 fires (when throttling allows) and activates; active with
EC < 20 deactivates without firing; otherwise, including the 20..25
dead-zone, nothing changes and nothing fires. -/
theorem claim_C5_exit_cluster_hysteresis (a : Bool) (ec : ℚ) (c : Bool) :
    (a = false → ec > 25 →
      (evaluate_exit_cluster_alert a ec c false).1 = c ∧
      (evaluate_exit_cluster_alert a ec c false).2.1 = true) ∧
    (a = true → ec < 20 →
      (evaluate_exit_cluster_alert a ec c false).1 = false ∧
      (evaluate_exit_cluster_alert a ec c false).2.1 = false ∧
      (evaluate_exit_cluster_alert a ec c false).2.2 = []) ∧
    (¬(a = false ∧ ec > 25) → ¬(a = true ∧ ec < 20) →
      (evaluate_exit_cluster_alert a ec c false).1 = false ∧
      (evaluate_exit_cluster_alert a ec c false).2.1 = a ∧
      (evaluate_exit_cluster_alert a ec c false).2.2 = []) := by
  refine ⟨fun ha hec => ?_, fun ha hec => ?_, fun hno1 hno2 => ?_⟩
  · subst ha
    cases c <;> simp [evaluate_exit_cluster_alert, hec]
  · subst ha
    have h1 : ¬(ec > 25) := by linarith
    simp [evaluate_exit_cluster_alert, h1, hec]
  · cases a
    · have hec : ¬(ec > 25) := fun h => hno1 ⟨rfl, h⟩
      simp [evaluate_exit_cluster_alert, hec]
    · have hec : ¬(ec < 20) := fun h => hno2 ⟨rfl, h⟩
      simp [evaluate_exit_cluster_alert, hec]

/-- C5 witness: the hysteresis at concrete points 26 (fires from
inactive), 19 (resets from active without firing) and 22 (dead-zone
no-op), through the theorem. -/
theorem claim_C5_exit_cluster_hysteresis_witness :
    ((evaluate_exit_cluster_alert false 26 true false).1 = true ∧
      (evaluate_exit_cluster_alert false 26 true false).2.1 = true) ∧
    ((evaluate_exit_cluster_alert true 19 true false).1 = false ∧
      (evaluate_exit_cluster_alert true 19 true false).2.1 = false ∧
      (evaluate_exit_cluster_alert true 19 true false).2.2 = []) ∧
    ((evaluate_exit_cluster_alert true 22 true false).1 = false ∧
      (evaluate_exit_cluster_alert true 22 true false).2.1 = true ∧
      (evaluate_exit_cluster_alert true 22 true false).2.2 = []) :=
  ⟨(claim_C5_exit_cluster_hysteresis false 26 true).1 rfl (by decide),
   ((claim_C5_exit_cluster_hysteresis true 19 true).2.1 rfl (by decide)),
   ((claim_C5_exit_cluster_hysteresis true 22 true).2.2
     (fun h => by simp at h) (fun h => by exact absurd h.2 (by decide)))⟩

/-- C6: while the system-stale alert state is active, behavioral alert
evaluation is a no-op for every asset: nothing fires, no alert row
(suppressed or not) is persisted, and the per-asset alert states are
untouched. -/
theorem claim_C6_system_stale_suppression (rt : Option RegimeState)
    (ea : Bool) (pb : String) (ec : ℚ) (rc ecf : Bool) :
    evaluate_alerts true rt ea pb ec rc ecf = ([], rt, ea, []) := by
  simp [evaluate_alerts]

/-- C7: a stale health state, a failed snapshot status, or a missing
health row engages the signal lock and the whole 5-minute cycle is
skipped: nothing after the gate of run_signal_computation runs. -/
theorem claim_C7_signal_lock {α : Type} (health : Option HealthRow)
    (cycle : α) :
    (health = none ∨ ∃ h, health = some h ∧
      (h.health_state = "stale" ∨ h.snapshot_status = "failed")) →
    check_signal_lock health = false ∧
    run_signal_computation health cycle = none := by
  intro hcase
  have hlock : check_signal_lock health = false := by
    rcases hcase with rfl | ⟨h, rfl, hs | hf⟩
    · rfl
    · simp [check_signal_lock, hs]
    · by_cases hstale : h.health_state = "stale" <;>
        simp [check_signal_lock, hstale, hf]
  exact ⟨hlock, by simp [run_signal_computation, hlock]⟩

/-- C7 witness: the lock at the three concrete gating situations,
through the theorem. -/
theorem claim_C7_signal_lock_witness :
    (check_signal_lock (some ⟨"stale", "success"⟩) = false ∧
      run_signal_computation (some ⟨"stale", "success"⟩) (0 : ℕ) = none) ∧
    (check_signal_lock (some ⟨"healthy", "failed"⟩) = false ∧
      run_signal_computation (some ⟨"healthy", "failed"⟩) (0 : ℕ) = none) ∧
    (check_signal_lock none = false ∧
      run_signal_computation (none : Option HealthRow) (0 : ℕ) = none) :=
  ⟨claim_C7_signal_lock _ 0 (Or.inr ⟨_, rfl, Or.inl rfl⟩),
   claim_C7_signal_lock _ 0 (Or.inr ⟨_, rfl, Or.inr rfl⟩),
   claim_C7_signal_lock _ 0 (Or.inl rfl)⟩

/-- C4: the regime-change alert fires only when the observed playbook
differs from previous_playbook and the same new playbook has been seen
for exactly two consecutive periods. The conjunction states: (a) the
first observation of an asset initializes tracking without firing;
(b) the tracking invariant is preserved by every step; (c) under the
invariant, a fire happens exactly when the playbook differs from the
previous one, the pending playbook equals it (i.e. the directly
preceding period already observed it), and throttling allows the fire;
(d) a pending playbook recorded by a step is always the playbook
observed at that step; (e) a reversion to previous_playbook cancels a
pending change without firing. -/
theorem claim_C4_regime_change_two_periods :
    (∀ p c, evaluate_regime_change_alert none p c false =
      (false, some ⟨p, none, 0⟩, [])) ∧
    (∀ s p c s', RegimeInv s →
      (evaluate_regime_change_alert (some s) p c false).2.1 = some s' →
      RegimeInv s') ∧
    (∀ s p c, RegimeInv s →
      ((evaluate_regime_change_alert (some s) p c false).1 = true ↔
        p ≠ s.previous_playbook ∧ s.pending_playbook = some p ∧
          c = true)) ∧
    (∀ t p c s', (evaluate_regime_change_alert t p c false).2.1 = some s' →
      s'.pending_playbook = none ∨ s'.pending_playbook = some p) ∧
    (∀ s p c, RegimeInv s → p = s.previous_playbook →
      s.pending_playbook ≠ none →
      (evaluate_regime_change_alert (some s) p c false).1 = false ∧
      (evaluate_regime_change_alert (some s) p c false).2.1 =
        some ⟨p, none, 0⟩) := by
  refine ⟨fun p c => rfl, ?_, ?_, ?_, ?_⟩
  · -- (b) invariant preservation
    intro s p c s' hInv heq
    by_cases hchg : p = s.previous_playbook
    · subst hchg
      by_cases hpend : s.pending_playbook = some s.previous_playbook
      · rcases hInv with ⟨hn, _⟩ | ⟨x, hx, hxne, _⟩
        · rw [hn] at hpend; exact absurd hpend (by simp)
        · rw [hx] at hpend
          injection hpend with hxp
          exact absurd rfl (hxp ▸ hxne)
      · by_cases hne : s.pending_playbook ≠ none <;>
          simp [evaluate_regime_change_alert, hpend, hne] at heq <;>
          rw [← heq] <;> exact Or.inl ⟨rfl, rfl⟩
    · by_cases hpend : s.pending_playbook = some p
      · have hper : s.periods_at_new = 1 := by
          rcases hInv with ⟨hn, _⟩ | ⟨x, hx, _, hper⟩
          · rw [hn] at hpend; exact absurd hpend (by simp)
          · exact hper
        by_cases hc : c
        · simp [evaluate_regime_change_alert, hchg, hpend, hper, hc] at heq
          rw [← heq]; exact Or.inl ⟨rfl, rfl⟩
        · simp [evaluate_regime_change_alert, hchg, hpend, hper, hc] at heq
          rw [← heq]; exact Or.inl ⟨rfl, rfl⟩
      · simp [evaluate_regime_change_alert, hchg, hpend] at heq
        rw [← heq]
        exact Or.inr ⟨p, rfl, fun h => hchg h, rfl⟩
  · -- (c) fire characterization
    intro s p c hInv
    by_cases hchg : p = s.previous_playbook
    · subst hchg
      constructor
      · intro hfire
        exfalso
        by_cases hpend : s.pending_playbook = some s.previous_playbook
        · rcases hInv with ⟨hn, _⟩ | ⟨x, hx, hxne, _⟩
          · rw [hn] at hpend; exact absurd hpend (by simp)
          · rw [hx] at hpend
            injection hpend with hxp
            exact absurd rfl (hxp ▸ hxne)
        · by_cases hne : s.pending_playbook ≠ none <;>
            simp [evaluate_regime_change_alert, hpend, hne] at hfire
      · rintro ⟨hne, _, _⟩; exact absurd rfl hne
    · by_cases hpend : s.pending_playbook = some p
      · have hper : s.periods_at_new = 1 := by
          rcases hInv with ⟨hn, _⟩ | ⟨x, hx, _, hper⟩
          · rw [hn] at hpend; exact absurd hpend (by simp)
          · exact hper
        by_cases hc : c
        · simp [evaluate_regime_change_alert, hchg, hpend, hper, hc]
        · simp [evaluate_regime_change_alert, hchg, hpend, hper, hc]
      · constructor
        · intro hfire
          simp [evaluate_regime_change_alert, hchg, hpend] at hfire
        · rintro ⟨_, hp, _⟩; exact absurd hp hpend
  · -- (d) a recorded pending playbook is the observed playbook
    intro t p c s' heq
    match t with
    | none =>
      simp [evaluate_regime_change_alert] at heq
      rw [← heq]; exact Or.inl rfl
    | some s =>
      by_cases hchg : p = s.previous_playbook
      · subst hchg
        by_cases hpend : s.pending_playbook = some s.previous_playbook
        · by_cases hper : s.periods_at_new + 1 ≥ 2
          · simp [evaluate_regime_change_alert, hpend, hper] at heq
            rw [← heq]; exact Or.inl rfl
          · simp [evaluate_regime_change_alert, hpend, hper] at heq
            rw [← heq]; exact Or.inr rfl
        · by_cases hne : s.pending_playbook ≠ none <;>
            simp [evaluate_regime_change_alert, hpend, hne] at heq <;>
            rw [← heq] <;> exact Or.inl rfl
      · by_cases hpend : s.pending_playbook = some p
        · by_cases hper : s.periods_at_new + 1 ≥ 2
          · by_cases hc : c <;>
              simp [evaluate_regime_change_alert, hchg, hpend, hper, hc]
                at heq <;>
              rw [← heq] <;> exact Or.inl rfl
          · simp [evaluate_regime_change_alert, hchg, hpend, hper] at heq
            rw [← heq]; exact Or.inr rfl
        · simp [evaluate_regime_change_alert, hchg, hpend] at heq
          rw [← heq]; exact Or.inr rfl
  · -- (e) reversion cancels pending without firing
    intro s p c hInv hsame hpendne
    subst hsame
    have hpend : ¬(s.pending_playbook = some s.previous_playbook) := by
      rcases hInv with ⟨hn, _⟩ | ⟨x, hx, hxne, _⟩
      · exact absurd hn hpendne
      · rw [hx]
        intro h
        injection h with hxp
        exact absurd rfl (hxp ▸ hxne)
    simp [evaluate_regime_change_alert, hpend, hpendne]

/-- C4 witness: starting from freshly initialized tracking on Long-only,
a first Short-only observation does not fire and records it pending; the
second consecutive Short-only observation fires, through the theorem. -/
theorem claim_C4_regime_change_two_periods_witness :
    (evaluate_regime_change_alert (some ⟨"Long-only", none, 0⟩)
      "Short-only" true false).1 = false ∧
    (evaluate_regime_change_alert (some ⟨"Long-only", some "Short-only", 1⟩)
      "Short-only" true false).1 = true := by
  constructor
  · have h := claim_C4_regime_change_two_periods.2.2.1
      ⟨"Long-only", none, 0⟩ "Short-only" true (Or.inl ⟨rfl, rfl⟩)
    cases hef : (evaluate_regime_change_alert
      (some ⟨"Long-only", none, 0⟩) "Short-only" true false).1
    · rfl
    · exact absurd (h.mp hef).2.1 (by simp)
  · exact (claim_C4_regime_change_two_periods.2.2.1
      ⟨"Long-only", some "Short-only", 1⟩ "Short-only" true
      (Or.inr ⟨"Short-only", rfl, by decide, rfl⟩)).mpr
      ⟨by decide, rfl, rfl⟩

/-- The code's clamp max(-2, min(2, r)) agrees with clamping r into
[-2, +2] written the other way around. -/
lemma clampRatio_eq (delta prev epsilon : ℚ) :
    clampRatio delta prev epsilon =
      min 2 (max (-2) (delta / max |prev| epsilon)) := by
  unfold clampRatio
  rw [max_min_distrib_left,
    (by norm_num [max_def] : max (-2 : ℚ) 2 = 2)]

/-- A nonempty list deduplicates to a single element exactly when all its
elements are equal. -/
lemma dedup_length_eq_one_iff {l : List ℚ} (hne : l ≠ []) :
    l.dedup.length = 1 ↔ ∀ x ∈ l, ∀ y ∈ l, x = y := by
  constructor
  · intro h x hx y hy
    obtain ⟨a, ha⟩ := List.length_eq_one.mp h
    have hx2 : x ∈ l.dedup := List.mem_dedup.mpr hx
    have hy2 : y ∈ l.dedup := List.mem_dedup.mpr hy
    rw [ha, List.mem_singleton] at hx2 hy2
    rw [hx2, hy2]
  · intro h
    obtain ⟨a, hal⟩ := List.exists_mem_of_ne_nil l hne
    have hmem : a ∈ l.dedup := List.mem_dedup.mpr hal
    rcases hd : l.dedup with _ | ⟨b, t⟩
    · rw [hd] at hmem; simp at hmem
    · rcases t with _ | ⟨d, t2⟩
      · rfl
      · exfalso
        have hnodup := l.nodup_dedup
        rw [hd] at hnodup
        have hb : b ∈ l := List.mem_dedup.mp (by rw [hd]; simp)
        have hdm : d ∈ l := List.mem_dedup.mp (by rw [hd]; simp)
        rw [List.nodup_cons] at hnodup
        exact hnodup.1 (by rw [h b hb d hdm]; simp)

/-- The spec's filter-then-map ratio list is the ratio list the code's
loop builds. -/
lemma dispersion_ratios_spec_eq (l : List WalletClassification) :
    dispersion_ratios_spec l = dispersionRatios l := by
  induction l with
  | nil => rfl
  | cons w t ih =>
    simp only [dispersion_ratios_spec, dispersionRatios] at ih ⊢
    rcases hp : w.szi_previous with _ | prev <;>
      rcases hdta : w.delta_szi with _ | delta <;>
      simp [List.filter_cons, List.filterMap_cons, hp, hdta, clampRatio_eq,
        ih]

/-- C8: the dispersion index equals the spec's description: per-wallet
ratios delta / max(|szi_previous|, epsilon) clamped to [-2, +2] over
wallets having both szi_previous and delta; 50 when fewer than 5 ratios
exist; 0 when all ratios are equal; otherwise min(sigma * 100, 100) with
sigma the sample standard deviation of the clamped ratios. -/
theorem claim_C8_dispersion_index (l : List WalletClassification) :
    compute_dispersion_index l = dispersion_index_spec l := by
  unfold compute_dispersion_index dispersion_index_spec
  rw [dispersion_ratios_spec_eq]
  by_cases h5 : (dispersionRatios l).length < 5
  · rw [if_pos h5, if_pos h5]
  · rw [if_neg h5, if_neg h5]
    have hne : dispersionRatios l ≠ [] := by
      intro h
      rw [h] at h5
      exact h5 (by norm_num)
    by_cases hall : ∀ x ∈ dispersionRatios l, ∀ y ∈ dispersionRatios l,
        x = y
    · rw [if_pos ((dedup_length_eq_one_iff hne).mpr hall), if_pos hall]
    · rw [if_neg (fun h => hall ((dedup_length_eq_one_iff hne).mp h)),
        if_neg hall]

end HLDash

